/-
Verification of the stock_tracker crawl-expand-enrich-persist pipeline.

Shallow embedding of the Python sources:
  scraper/stockscraper/spiders/sec_fillings.py   (to_cik, SecFilingsSpider)
  scraper/stockscraper/spiders/yahoo_news_rss.py (YahooNewsRSSSpider)
  scraper/stockscraper/pipelines.py              (OpenAIPipeline, DuckDBPipeline, ParquetPipeline)
  scraper/stockscraper/settings.py, dashboard/app.py (scheduler configuration)

Scrapy items are modelled as association lists from field names to Python
values (mirroring dict(ItemAdapter(item)): a key is present exactly when the
field was set).  Python floats are modelled as rationals: the pipeline only
stores and compares scores, it performs no float arithmetic, so no rounding
behaviour is observable.
-/
import Mathlib

set_option autoImplicit false

/-- PVal models the Python values that flow through the pipeline: None (also
standing for pandas NaN/NaT, which fillna treats the same way), strings,
numbers (int and float collapsed into Rat), and booleans.  JSON arrays and
objects nested inside a response are not modelled: no spider or pipeline in
the source produces them, and where they could arrive (a malformed analysis
response) they only matter through float() raising, which the str
constructor with a non-numeric payload already exhibits. -/
inductive PVal where
  | none
  | str (s : String)
  | num (q : Rat)
  | bool (b : Bool)
  deriving DecidableEq, Repr

/-- A scrapy item as seen through dict(ItemAdapter(item)). -/
abbrev Item := List (String × PVal)

/-- Python truthiness of a PVal, used by the `or` chain in
OpenAIPipeline.process_item. -/
def truthy : PVal → Bool
  | .none => false
  | .str s => s ≠ ""
  | .num q => q ≠ 0
  | .bool b => b

/-- Rendering of a PVal inside an f-string (str() in Python). -/
def pyStr : PVal → String
  | .none => "None"
  | .str s => s
  | .num q => toString q
  | .bool b => if b then "True" else "False"

/-- Uppercasing of one ASCII character, as Python str.upper does on the
ASCII tickers this code handles. -/
def pyUpperChar (c : Char) : Char :=
  if c.isLower then Char.ofNat (c.toNat - 32) else c

/-- Python str.upper restricted to ASCII, the alphabet of tickers. -/
def pyUpper (s : String) : String :=
  String.mk (s.toList.map pyUpperChar)

/-- Python str.zfill: left-pad with zeros to the requested width. -/
def zfill (width : Nat) (s : String) : String :=
  if width ≤ s.length then s
  else String.mk (List.replicate (width - s.length) '0') ++ s

/-- Digits of a character list interpreted in base 10; Option.none when a
non-digit appears. -/
def digitsVal : List Char → Option Nat
  | [] => some 0
  | c :: cs =>
    if c.isDigit then
      (digitsVal cs).map (fun n => (c.toNat - 48) * 10 ^ cs.length + n)
    else Option.none

/-- Split a character list at the first dot, if any. -/
def splitDot : List Char → List Char × Option (List Char)
  | [] => ([], Option.none)
  | '.' :: r => ([], some r)
  | c :: r => let (a, b) := splitDot r; (c :: a, b)

/-- Python str.isspace per character: the unicode whitespace set that
str.strip() and str.split() use (ASCII whitespace, the C0 separators
0x1C-0x1F, NEL, NBSP, the Ogham space, the U+2000-200A range, the line and
paragraph separators, the narrow and mathematical spaces, and the
ideographic space). -/
def pyIsSpace (c : Char) : Bool :=
  c.toNat ∈ [9, 10, 11, 12, 13, 28, 29, 30, 31, 32, 133, 160, 5760] ∨
    (8192 ≤ c.toNat ∧ c.toNat ≤ 8202) ∨
    c.toNat ∈ [8232, 8233, 8239, 8287, 12288]

/-- Python str.strip(): drop leading and trailing unicode whitespace. -/
def pyStrip (s : String) : String :=
  String.mk
    (((s.toList.dropWhile pyIsSpace).reverse.dropWhile pyIsSpace).reverse)

/-- Two adjacent underscores somewhere in the list. -/
def hasDoubleUS : List Char → Bool
  | '_' :: '_' :: _ => true
  | _ :: rest => hasDoubleUS rest
  | [] => false

/-- A possibly-empty digit group as float() reads it (PEP 515 underscores):
digits with single underscores strictly between digits.  Returns the value
and the number of digits, or Option.none when the group is malformed. -/
def usGroup (l : List Char) : Option (Nat × Nat) :=
  match l with
  | [] => some (0, 0)
  | _ =>
    if l.all (fun c => c.isDigit ∨ c = '_') ∧ l.head? ≠ some '_'
        ∧ l.getLast? ≠ some '_' ∧ ¬ hasDoubleUS l then
      let ds := l.filter (fun c => c ≠ '_')
      (digitsVal ds).map (fun n => (n, ds.length))
    else Option.none

/-- Split a character list at the first exponent marker e/E, if any. -/
def splitExp : List Char → List Char × Option (List Char)
  | [] => ([], Option.none)
  | c :: r =>
    if c = 'e' ∨ c = 'E' then ([], some r)
    else let (a, b) := splitExp r; (c :: a, b)

/-- Outcome of Python float() on a value: a ValueError/TypeError, a finite
value, or one of the non-finite floats nan and ±inf (values the rational
universe cannot carry). -/
inductive FloatConv where
  | raises
  | finite (q : Rat)
  | nonfinite
  deriving DecidableEq, Repr

/-- The unsigned finite part of the float() string grammar:
digits [. digits] [e/E [sign] digits], underscores per usGroup, at least
one mantissa digit, at least one exponent digit when the marker appears. -/
def parseFinite (l : List Char) : Option Rat :=
  let (mant, expPart) := splitExp l
  let (ip, fp0) := splitDot mant
  match usGroup ip, usGroup (fp0.getD []) with
  | some (iv, ic), some (fv, fc) =>
    if ic + fc = 0 then Option.none
    else
      let base : Rat := iv + (fv : Rat) / 10 ^ fc
      match expPart with
      | Option.none => some base
      | some el =>
        let (eneg, edigits) : Bool × List Char :=
          match el with
          | '-' :: r => (true, r)
          | '+' :: r => (false, r)
          | r => (false, r)
        match usGroup edigits with
        | some (ev, ec) =>
          if ec = 0 then Option.none
          else some (if eneg then base / 10 ^ ev else base * 10 ^ ev)
        | Option.none => Option.none
  | _, _ => Option.none

/-- Python float() on a string: strip unicode whitespace, take an optional
sign, then either the case-insensitive non-finite words inf/infinity/nan or
the finite decimal grammar; anything else raises ValueError. -/
def pyFloatString (s : String) : FloatConv :=
  let t := (pyStrip s).toList
  let (neg, rest) : Bool × List Char :=
    match t with
    | '-' :: r => (true, r)
    | '+' :: r => (false, r)
    | r => (false, r)
  let up := String.mk (rest.map pyUpperChar)
  if up = "NAN" ∨ up = "INF" ∨ up = "INFINITY" then .nonfinite
  else
    match parseFinite rest with
    | some q => .finite (if neg then -q else q)
    | Option.none => .raises

/-- Python float() applied to a PVal: numbers pass through, booleans are
1/0, strings go through the float() grammar, None raises TypeError. -/
def pyFloat : PVal → FloatConv
  | .num q => .finite q
  | .bool b => .finite (if b then 1 else 0)
  | .str s => pyFloatString s
  | .none => .raises

/-- Accumulator pass of pyWords: walk the characters, flushing the current
word (held reversed in acc) at each whitespace run. -/
def pyWordsAux : List Char → List Char → List String
  | [], acc => if acc = [] then [] else [String.mk acc.reverse]
  | c :: cs, acc =>
    if pyIsSpace c then
      if acc = [] then pyWordsAux cs []
      else String.mk acc.reverse :: pyWordsAux cs []
    else pyWordsAux cs (c :: acc)

/-- Python str.split() with no argument: split on whitespace runs, no empty
tokens. -/
def pyWords (s : String) : List String :=
  pyWordsAux s.toList []

/-- Truncation to the first n whitespace-delimited tokens, as
" ".join(text.split()[:n]) in both spiders. -/
def truncateWords (n : Nat) (s : String) : String :=
  String.intercalate " " ((pyWords s).take n)

/-- Key lookup in an item, as dict.get / ItemAdapter.get (None when
absent — the assoc list holds no explicit binding). -/
def getField (item : Item) (k : String) : Option PVal :=
  List.lookup k item

/-- Python `k in item` on the item dict. -/
def hasKey (item : Item) (k : String) : Bool :=
  (getField item k).isSome

/-- Assignment adapter[k] = v: replace the binding if the key is present,
otherwise append it. -/
def setField (item : Item) (k : String) (v : PVal) : Item :=
  match item with
  | [] => [(k, v)]
  | (k', v') :: rest =>
    if k = k' then (k, v) :: rest else (k', v') :: setField rest k v

/-
spiders/sec_fillings.py, to_cik (lines 9-36).  The SEC company-tickers JSON
is modelled as the list of its values: pairs of a ticker string and the
numeric cik_str.  The Python loop returns on the first case-insensitive
match, with str(cik_str).zfill(10); no match (or a fetch failure caught by
the surrounding try) returns None.
-/

/-- Reference-table entry of company_tickers.json: (ticker, cik_str). -/
abbrev CompanyTable := List (String × Nat)

/-- to_cik from sec_fillings.py: first entry whose ticker matches
case-insensitively, its cik zero-padded to width 10. -/
def to_cik (table : CompanyTable) (ticker : String) : Option String :=
  match List.find? (fun p => pyUpper p.1 == pyUpper ticker) table with
  | some p => some (zfill 10 (Nat.repr p.2))
  | Option.none => Option.none

/-
spiders/sec_fillings.py, SecFilingsSpider.parse (lines 78-162) and
parse_report (lines 164-202).  The filings index response is modelled by the
company fields and the four parallel lists under filings.recent; zip
truncates to the shortest, as in Python.
-/

/-- One position of the zipped (form, filingDate, accessionNumber,
primaryDocument) lists. -/
structure SecEntry where
  form : String
  filingDate : String
  accessionNo : String
  primaryDoc : String
  deriving DecidableEq, Repr

/-- The filings.recent parallel lists of the index response. -/
structure SecRecent where
  forms : List String
  dates : List String
  accessions : List String
  primaryDocs : List String

/-- zip(forms, dates, accessions, primary_docs). -/
def secZip (r : SecRecent) : List SecEntry :=
  (r.forms.zip (r.dates.zip (r.accessions.zip r.primaryDocs))).map
    (fun p => ⟨p.1, p.2.1, p.2.2.1, p.2.2.2⟩)

/-- The allow-list tuple ("10-K", "10-Q", "8-K") of parse line 125. -/
def relevantForms : List String := ["10-K", "10-Q", "8-K"]

/-- The detail-document URL built at parse line 132. -/
def reportUrl (cik : Nat) (acc pdoc : String) : String :=
  "https://www.sec.gov/Archives/edgar/data/" ++ Nat.repr cik ++ "/"
    ++ (acc.replace "-" "") ++ "/" ++ pdoc

/-- The meta dict attached to each follow request (parse lines 135-144). -/
def secMeta (cik : Nat) (ticker company : String) (e : SecEntry) : Item :=
  [("cik", .str (Nat.repr cik)),
   ("ticker", .str ticker),
   ("company_name", .str company),
   ("form", .str e.form),
   ("filing_date", .str e.filingDate),
   ("accession_no", .str e.accessionNo),
   ("primary_doc", .str e.primaryDoc),
   ("report_url", .str (reportUrl cik e.accessionNo e.primaryDoc))]

/-- SecFilingsSpider.parse: entries whose form is outside the allow-list are
skipped by the continue at line 126; each retained entry yields a follow
request carrying its meta. -/
def secParse (cik : Nat) (ticker company : String) (r : SecRecent) : List Item :=
  ((secZip r).filter (fun e => relevantForms.contains e.form)).map
    (secMeta cik ticker company)

/-- SecFilingsSpider.parse_report: the fetched detail page reduced to its
visible text.  An empty text returns without an item (line 177-179);
otherwise the item is the meta fields plus report_text truncated to the
first 4000 tokens (line 182). -/
def parse_report (meta : Item) (pageText : String) : Option Item :=
  if pageText = "" then Option.none
  else some (setField meta "report_text" (.str (truncateWords 4000 pageText)))

/-- The FilingCandidates one run emits: each follow request's detail page is
fetched (fetch gives its extracted text) and parse_report may yield an
item. -/
def secEmitted (cik : Nat) (ticker company : String) (r : SecRecent)
    (fetch : Item → String) : List Item :=
  (secParse cik ticker company r).filterMap (fun m => parse_report m (fetch m))

/-
spiders/yahoo_news_rss.py.  A feed entry carries title, link, an optional
published instant (already converted by the try at lines 26-30: the Option
is some exactly when the attribute was present and convertible) and an
optional short summary (getattr(e, "summary", "")).
-/

/-- One RSS feed entry as the spider reads it. -/
structure FeedEntry where
  title : String
  link : String
  published : Option String
  summary : Option String
  deriving DecidableEq, Repr

/-- The article page fetched from the entry link: the caas-body container
text when the container is present. -/
structure ArticlePage where
  body : Option String
  deriving DecidableEq, Repr

/-- The meta dict built in parse_rss lines 33-40. -/
def newsMeta (ticker : String) (e : FeedEntry) : Item :=
  [("ticker", .str ticker),
   ("source", .str "YahooFinanceRSS"),
   ("title", .str e.title),
   ("link", .str e.link),
   ("published", match e.published with | some s => .str s | Option.none => .none),
   ("summary", .str (e.summary.getD ""))]

/-- The allowed key set of parse_article line 50. -/
def newsAllowedKeys : List String :=
  ["ticker", "source", "title", "link", "published", "summary", "article_text"]

/-- YahooNewsRSSSpider.parse_article: extract the caas-body text (empty
string when the container is absent, line 47), truncate to 2000 tokens,
keep only the allowed meta keys and set article_text. -/
def parse_article (meta : Item) (page : ArticlePage) : Item :=
  let articleText := truncateWords 2000 (page.body.getD "")
  let data := meta.filter (fun p => newsAllowedKeys.contains p.1)
  setField data "article_text" (.str articleText)

/-- The NewsCandidates one run emits: parse_rss follows every entry link and
parse_article yields exactly one item per response. -/
def newsEmitted (ticker : String) (entries : List FeedEntry)
    (fetch : FeedEntry → ArticlePage) : List Item :=
  entries.map (fun e => parse_article (newsMeta ticker e) (fetch e))

/-
pipelines.py, OpenAIPipeline.process_item (lines 37-86).  The outcome of the
external call is modelled by ApiResponse: apiFailure covers every path on
which Python raises before the three adapter assignments complete from
response data (transport error, timeout, json.loads failure, a non-object
body making .get raise); apiSuccess carries the parsed JSON object as an
association list.  Inside the try block the three assignments run in order
and float() may raise; the except clause then overwrites all three fields,
so the net effect of any raise is the full fallback triple.
-/

/-- Outcome of the openai.chat.completions.create call together with
json.loads on its content. -/
inductive ApiResponse where
  | apiFailure
  | apiSuccess (fields : List (String × PVal))
  deriving Repr

/-- dict.get with a default, as analysis.get(key, default). -/
def jsonGet (fields : List (String × PVal)) (k : String) (d : PVal) : PVal :=
  (List.lookup k fields).getD d

/-- The except branch of process_item (lines 80-84): the full fallback
triple. -/
def enrichFallback (item : Item) : Item :=
  setField (setField (setField item "summary_ai" (.str "Error in analysis."))
      "sentiment" (.str "Unknown"))
    "sentiment_score" (.num 0)

/-- The three assignments of lines 75-77.  float() raising on the score
value lands in the except branch, which overwrites every field assigned so
far, so that case nets to the fallback triple.  A score converting to one
of the non-finite floats (nan, ±inf) is stored like any other: PVal has no
non-finite value, so PVal.none stands in for it — exact for nan, which every
downstream consumer of this field (pandas to_numeric/fillna) treats as NA
precisely like None, and a universe boundary for ±inf, about which no
theorem below asserts anything. -/
def applyAnalysis (fields : List (String × PVal)) (item : Item) : Item :=
  match pyFloat (jsonGet fields "sentiment_score" (.num 0)) with
  | .raises => enrichFallback item
  | .finite q =>
    setField (setField (setField item "summary_ai" (jsonGet fields "summary" (.str "")))
        "sentiment" (jsonGet fields "sentiment" (.str "Unknown")))
      "sentiment_score" (.num q)
  | .nonfinite =>
    setField (setField (setField item "summary_ai" (jsonGet fields "summary" (.str "")))
        "sentiment" (jsonGet fields "sentiment" (.str "Unknown")))
      "sentiment_score" .none

/-- The text_content or-chain of lines 45-49.  The separator in the source
f-string is the three-character mojibake sequence U+00E2 U+20AC U+201D (the
em dash's UTF-8 bytes misdecoded), so the fallback string is title, a space,
those three characters, a space, and the summary — 5 separator characters,
which is what the 10-character skip guard sees. -/
def textContent (item : Item) : String :=
  let rt := (getField item "report_text").getD .none
  let at' := (getField item "article_text").getD .none
  if truthy rt then pyStr rt
  else if truthy at' then pyStr at'
  else pyStr ((getField item "title").getD (.str "")) ++ " \u00e2\u20ac\u201d "
    ++ pyStr ((getField item "summary").getD (.str ""))

/-- OpenAIPipeline.process_item.  The Bool records whether the external call
was made (the try block was entered); the Item is the returned item.  hasApiKey
mirrors the module-level openai.api_key truthiness check of line 40. -/
def openaiProcessItem (hasApiKey : Bool) (resp : ApiResponse) (item : Item) :
    Bool × Item :=
  if ¬ hasApiKey then (false, item)
  else
    let text := textContent item
    if text = "" ∨ (pyStrip text).length < 10 then (false, item)
    else
      match resp with
      | .apiFailure => (true, enrichFallback item)
      | .apiSuccess fields => (true, applyAnalysis fields item)

/-
pipelines.py, DuckDBPipeline.close_spider (lines 160-277) and
ParquetPipeline.close_spider (lines 292-317).  The pandas work factors into
per-cell operations: ensure column (missing key reads as None), reorder to
the fixed column list, to_datetime/to_numeric with errors="coerce"
(elementwise), fillna from a per-column default dict (elementwise, None and
NaN/NaT both count as NA).
-/

/-- The sec_columns list of lines 187-191. -/
def secColumns : List String :=
  ["cik", "ticker", "company_name", "form", "filing_date",
   "accession_no", "primary_doc", "report_url", "report_text",
   "summary_ai", "sentiment", "sentiment_score"]

/-- The news_columns list of lines 234-237. -/
def newsColumns : List String :=
  ["ticker", "source", "title", "link", "published",
   "summary", "article_text", "summary_ai", "sentiment", "sentiment_score"]

/-- Validity of an ISO yyyy-mm-dd date string, the shape pd.to_datetime
receives from the SEC index; anything else the pipeline can feed it
coerces to NaT.  (Numeric-epoch inputs are not modelled: no spider produces
a numeric date.) -/
def isIsoDate (s : String) : Bool :=
  let cs := s.toList
  cs.length = 10 ∧
    (cs.take 4).all Char.isDigit ∧ cs.get? 4 = some '-' ∧
    ((cs.drop 5).take 2).all Char.isDigit ∧ cs.get? 7 = some '-' ∧
    (cs.drop 8).all Char.isDigit

/-- pd.to_datetime(col, errors="coerce") on one cell: an unparseable value
becomes NaT (modelled as PVal.none), a parseable date string is kept. -/
def dtCoerce (v : PVal) : PVal :=
  match v with
  | .str s => if isIsoDate s then .str s else .none
  | _ => .none

/-- pd.to_numeric(col, errors="coerce") on one cell.  An unparseable string
coerces to NaN, modelled as PVal.none (fillna treats NaN and None alike, as
pandas does).  A string reading as nan coerces to NaN — the same PVal.none,
exactly.  A string reading as ±inf coerces to an infinite float, which the
rational universe cannot carry; it is conflated with the NA marker here, a
boundary no theorem below quantifies over. -/
def numCoerce (v : PVal) : PVal :=
  match v with
  | .num q => .num q
  | .bool b => .num (if b then 1 else 0)
  | .str s => match pyFloatString s with
              | .finite q => .num q
              | _ => .none
  | .none => .none

/-- fillna with a per-column default: NA cells (None/NaN/NaT) take the
column's default when the fill dict has one. -/
def fillnaCell (v : PVal) (d : Option PVal) : PVal :=
  match v, d with
  | .none, some w => w
  | _, _ => v

/-- The fillna dict of lines 205-210 (sec filings).  filing_date is absent
from it: a missing or unparseable date stays NULL. -/
def secFillDefault (c : String) : Option PVal :=
  if c = "sentiment" then some (.str "Unknown")
  else if c = "sentiment_score" then some (.num 0)
  else if c ∈ ["cik", "ticker", "company_name", "form", "accession_no",
               "primary_doc", "report_url", "report_text", "summary_ai"] then
    some (.str "")
  else Option.none

/-- The fillna dict of lines 251-255 (news).  published is absent from it. -/
def newsFillDefault (c : String) : Option PVal :=
  if c = "sentiment" then some (.str "Unknown")
  else if c = "sentiment_score" then some (.num 0)
  else if c ∈ ["ticker", "source", "title", "link", "summary",
               "article_text", "summary_ai"] then
    some (.str "")
  else Option.none

/-- The type-coercion step per sec column (lines 201-202). -/
def secCoerce (c : String) (v : PVal) : PVal :=
  if c = "filing_date" then dtCoerce v
  else if c = "sentiment_score" then numCoerce v
  else v

/-- The type-coercion step per news column (lines 247-248). -/
def newsCoerce (c : String) (v : PVal) : PVal :=
  if c = "published" then dtCoerce v
  else if c = "sentiment_score" then numCoerce v
  else v

/-- Value of one cell of the reconciled sec-filings row: a missing key reads
as None (the ensure-columns loop of lines 194-196), then coercion, then
fillna. -/
def secCell (row : Item) (c : String) : PVal :=
  fillnaCell (secCoerce c ((getField row c).getD .none)) (secFillDefault c)

/-- Value of one cell of the reconciled news row. -/
def newsCell (row : Item) (c : String) : PVal :=
  fillnaCell (newsCoerce c ((getField row c).getD .none)) (newsFillDefault c)

/-- One reconciled sec-filings row as inserted into the store table: the
fixed columns in order with their reconciled values. -/
def reconciledSecRow (row : Item) : Item :=
  secColumns.map (fun c => (c, secCell row c))

/-- One reconciled news row as inserted into the store table. -/
def reconciledNewsRow (row : Item) : Item :=
  newsColumns.map (fun c => (c, newsCell row c))

/-- DuckDBPipeline.close_spider lines 172-176: the accumulation loop that
splits collected items into sec filings and news by the "form" key. -/
def duckSplit : List Item → List Item × List Item
  | [] => ([], [])
  | r :: rs =>
    let (s, n) := duckSplit rs
    if hasKey r "form" then (r :: s, n) else (s, r :: n)

/-- The batch inserted into the sec_filings store table in one run. -/
def duckSecBatch (items : List Item) : List Item :=
  (duckSplit items).1.map reconciledSecRow

/-- The batch inserted into the news store table in one run. -/
def duckNewsBatch (items : List Item) : List Item :=
  (duckSplit items).2.map reconciledNewsRow

/-- ParquetPipeline.close_spider line 302: the sec side of the archive
partition. -/
def parquetSecItems (items : List Item) : List Item :=
  items.filter (fun r => hasKey r "form")

/-- ParquetPipeline.close_spider line 303: the news side of the archive
partition. -/
def parquetNewsItems (items : List Item) : List Item :=
  items.filter (fun r => ¬ hasKey r "form")

/-- Value of one cell of an archive row: pd.DataFrame(items) is written
directly to parquet, so a cell is the raw item value, NaN (None) where the
row lacks the column; no coercion and no fillna are applied. -/
def parquetCell (row : Item) (c : String) : PVal :=
  (getField row c).getD .none

/-
Scheduler item-count ceiling.  settings.py line 24 (CLOSESPIDER_ITEMCOUNT =
20) and dashboard/app.py lines 41-48 (-s CLOSESPIDER_ITEMCOUNT=item_limit)
only configure the ceiling; the enforcing CloseSpider extension lives in the
scrapy framework, outside this repository.
-/

/-- Modelled from the spec: the enforcement of the configured item-count
ceiling (the CloseSpider extension reading CLOSESPIDER_ITEMCOUNT) is not
part of this repository's sources.  Spec 4.3: the Scheduler enforces a hard
ceiling on total items emitted per run; when the ceiling is reached the run
stops emitting further candidates gracefully and proceeds with what was
already emitted, in order.  The emission counter is checked before each
candidate is emitted. -/
def schedulerGo {α : Type} (ceiling : Nat) (count : Nat) : List α → List α
  | [] => []
  | c :: cs => if ceiling ≤ count then [] else c :: schedulerGo ceiling (count + 1) cs

/-- One run's emitted candidates under the item-count ceiling, starting from
an emission count of zero. -/
def schedulerRun {α : Type} (ceiling : Nat) (candidates : List α) : List α :=
  schedulerGo ceiling 0 candidates

/-
Helper lemmas about the embedding, shared by the claim theorems below.
-/

theorem getField_setField_self (item : Item) (k : String) (v : PVal) :
    getField (setField item k v) k = some v := by
  induction item with
  | nil => simp [setField, getField, List.lookup]
  | cons p rest ih =>
    by_cases h : k = p.1
    · simp [setField, getField, List.lookup, h]
    · have hbeq : (k == p.1) = false := beq_eq_false_iff_ne.mpr h
      simpa [setField, getField, List.lookup, h, hbeq] using ih

theorem getField_setField_ne (item : Item) (k k' : String) (v : PVal)
    (h : k ≠ k') : getField (setField item k v) k' = getField item k' := by
  have hbeq : (k' == k) = false := beq_eq_false_iff_ne.mpr (Ne.symm h)
  induction item with
  | nil => simp [setField, getField, List.lookup, hbeq]
  | cons p rest ih =>
    by_cases hk : k = p.1
    · subst hk
      simp [setField, getField, List.lookup, hbeq]
    · cases hc : (k' == p.1) with
      | true => simp [setField, getField, List.lookup, hk, hc]
      | false => simpa [setField, getField, List.lookup, hk, hc] using ih

theorem lookup_column_map (f : String → PVal) (l : List String) (c : String)
    (hc : c ∈ l) :
    List.lookup c (l.map (fun c => (c, f c))) = some (f c) := by
  induction l with
  | nil => cases hc
  | cons a l ih =>
    rcases List.mem_cons.mp hc with h | h
    · subst h; simp [List.lookup]
    · by_cases hca : c = a
      · subst hca; simp [List.lookup]
      · have hbeq : (c == a) = false := beq_eq_false_iff_ne.mpr hca
        simpa [List.lookup, hbeq] using ih h

theorem schedulerGo_eq_take {α : Type} (ceiling : Nat) :
    ∀ (cs : List α) (n : Nat), schedulerGo ceiling n cs = cs.take (ceiling - n) := by
  intro cs
  induction cs with
  | nil => intro n; simp [schedulerGo]
  | cons c cs ih =>
    intro n
    by_cases h : ceiling ≤ n
    · simp [schedulerGo, h, Nat.sub_eq_zero_of_le h]
    · have hpos : 0 < ceiling - n := Nat.sub_pos_of_lt (Nat.lt_of_not_le h)
      have : ceiling - n = (ceiling - (n + 1)) + 1 := by omega
      simp [schedulerGo, h, this, ih]

theorem zfill_length (w : Nat) (s : String) :
    (zfill w s).length = max w s.length := by
  unfold zfill
  by_cases h : w ≤ s.length
  · simp [h, Nat.max_eq_right h]
  · have hlt : s.length ≤ w := Nat.le_of_lt (Nat.lt_of_not_le h)
    simp only [h, if_false]
    rw [String.length_append]
    have hmk : (String.mk (List.replicate (w - s.length) '0')).length
        = w - s.length := by
      rw [String.length_mk, List.length_replicate]
    rw [hmk]
    omega

theorem getField_secMeta_form (cik : Nat) (ticker company : String) (e : SecEntry) :
    getField (secMeta cik ticker company e) "form" = some (.str e.form) := by
  simp [secMeta, getField, List.lookup]

theorem duckSplit_spec (items : List Item) :
    (duckSplit items).1 = parquetSecItems items ∧
    (duckSplit items).2 = parquetNewsItems items := by
  induction items with
  | nil => simp [duckSplit, parquetSecItems, parquetNewsItems]
  | cons r rs ih =>
    by_cases h : hasKey r "form"
    · simp [duckSplit, parquetSecItems, parquetNewsItems, List.filter_cons, h,
        ih.1, ih.2]
    · simp [duckSplit, parquetSecItems, parquetNewsItems, List.filter_cons, h,
        ih.1, ih.2]

/-- C10: with no external-analysis API key configured, process_item returns
the candidate completely unchanged — no call is made and no summary,
sentiment or score field is attached — so it reaches persistence without
enrichment fields. -/
theorem C10_no_api_key_item_unchanged (resp : ApiResponse) (item : Item) :
    openaiProcessItem false resp item = (false, item) := by
  rfl

/-- C9: the candidates a crawl worker emits under the configured item-count
ceiling never exceed the ceiling in number, and when the ceiling is reached
the run stops gracefully with exactly the already-emitted prefix, in order. -/
theorem C9_ceiling_bounds_emission {α : Type} (ceiling : Nat) (candidates : List α) :
    (schedulerRun ceiling candidates).length ≤ ceiling ∧
    schedulerRun ceiling candidates = candidates.take ceiling := by
  have h : schedulerRun ceiling candidates = candidates.take ceiling := by
    have := schedulerGo_eq_take ceiling candidates 0
    simpa [schedulerRun] using this
  refine ⟨?_, h⟩
  rw [h, List.length_take]
  exact Nat.min_le_left _ _

/-- C2: every FilingCandidate the filing crawl emits carries one of the three
allow-listed form types (10-K, 10-Q, 8-K), and the count of emitted
candidates with any other form type is 0. -/
theorem C2_only_relevant_forms_emitted (cik : Nat) (ticker company : String)
    (r : SecRecent) (fetch : Item → String) :
    (∀ item ∈ secEmitted cik ticker company r fetch,
      ∃ f ∈ relevantForms, getField item "form" = some (.str f)) ∧
    (secEmitted cik ticker company r fetch).countP
      (fun item =>
        decide (∀ f ∈ relevantForms, getField item "form" ≠ some (.str f))) = 0 := by
  have hall : ∀ item ∈ secEmitted cik ticker company r fetch,
      ∃ f ∈ relevantForms, getField item "form" = some (.str f) := by
    intro item hitem
    rw [secEmitted, List.mem_filterMap] at hitem
    obtain ⟨m, hm, hrep⟩ := hitem
    rw [secParse, List.mem_map] at hm
    obtain ⟨e, he, rfl⟩ := hm
    have hform : e.form ∈ relevantForms := by
      simpa using (List.mem_filter.mp he).2
    refine ⟨e.form, hform, ?_⟩
    rw [parse_report] at hrep
    split at hrep
    · exact absurd hrep (by simp)
    · have hitem : item = setField (secMeta cik ticker company e) "report_text"
          (.str (truncateWords 4000 (fetch (secMeta cik ticker company e)))) :=
        (Option.some.inj hrep).symm
      rw [hitem, getField_setField_ne _ _ _ _ (by decide)]
      exact getField_secMeta_form cik ticker company e
  refine ⟨hall, List.countP_eq_zero.mpr ?_⟩
  intro item hitem
  obtain ⟨f, hf, heq⟩ := hall item hitem
  simp only [decide_eq_true_eq]
  intro hforall
  exact hforall f hf heq

/-- C6 (counterexample): for the run whose collected batch is the single
filing candidate {"form": "8-K"}, the batch written to the parquet archive
is the raw item, not the reconciled batch inserted into the store: the
store row carries sentiment "Unknown" (and the other defaulted columns)
while the archived row has no sentiment column at all. -/
theorem C6_archive_not_reconciled_counterexample :
    duckSecBatch [[("form", PVal.str "8-K")]] ≠
      parquetSecItems [[("form", PVal.str "8-K")]] ∧
    secCell [("form", PVal.str "8-K")] "sentiment" = PVal.str "Unknown" ∧
    parquetCell [("form", PVal.str "8-K")] "sentiment" = PVal.none := by
  refine ⟨?_, rfl, rfl⟩
  decide

/-- C6 (amended): in one run the archive file for each kind receives exactly
the same rows as the store insertion for that kind — the same partition by
the form-key discriminator, in the same order — but with their raw candidate
values: the store batch is the column reconciliation (defaulting and
coercion) of precisely the archived rows, which the archive itself does not
apply. -/
theorem C6_amended_same_rows_raw_values (items : List Item) :
    (duckSplit items).1 = parquetSecItems items ∧
    (duckSplit items).2 = parquetNewsItems items ∧
    duckSecBatch items = (parquetSecItems items).map reconciledSecRow ∧
    duckNewsBatch items = (parquetNewsItems items).map reconciledNewsRow := by
  obtain ⟨h1, h2⟩ := duckSplit_spec items
  exact ⟨h1, h2, by rw [duckSecBatch, h1], by rw [duckNewsBatch, h2]⟩

theorem newsMeta_filter_allowed (ticker : String) (e : FeedEntry) :
    (newsMeta ticker e).filter (fun p => newsAllowedKeys.contains p.1)
      = newsMeta ticker e := by
  rfl

theorem getField_newsMeta_summary (ticker : String) (e : FeedEntry) :
    getField (newsMeta ticker e) "summary" = some (.str (e.summary.getD "")) := by
  simp [newsMeta, getField, List.lookup]

/-- C7: every feed entry yields exactly one NewsCandidate whether or not
article-body extraction succeeded: the emitted list has one item per entry,
each item carries the feed's own short summary, its article text is the
extracted body truncated to the first 2000 whitespace-delimited tokens, and
when the expected content container is absent the article text is the empty
string rather than a failure. -/
theorem C7_one_news_candidate_per_entry (ticker : String)
    (entries : List FeedEntry) (fetch : FeedEntry → ArticlePage) :
    (newsEmitted ticker entries fetch).length = entries.length ∧
    ∀ item ∈ newsEmitted ticker entries fetch, ∃ e ∈ entries,
      getField item "summary" = some (.str (e.summary.getD "")) ∧
      getField item "article_text" =
        some (.str (truncateWords 2000 ((fetch e).body.getD ""))) ∧
      ((fetch e).body = Option.none → getField item "article_text" = some (.str "")) := by
  constructor
  · rw [newsEmitted, List.length_map]
  · intro item hitem
    rw [newsEmitted, List.mem_map] at hitem
    obtain ⟨e, he, rfl⟩ := hitem
    refine ⟨e, he, ?_, ?_, ?_⟩
    · rw [parse_article]
      simp only [newsMeta_filter_allowed]
      rw [getField_setField_ne _ _ _ _ (by decide)]
      exact getField_newsMeta_summary ticker e
    · rw [parse_article]
      simp only [newsMeta_filter_allowed]
      exact getField_setField_self _ _ _
    · intro hbody
      rw [parse_article]
      simp only [newsMeta_filter_allowed, hbody]
      have h0 : truncateWords 2000 ((Option.none : Option String).getD "") = "" := by
        decide
      rw [h0]
      exact getField_setField_self _ _ _

/-- C8: ticker resolution is deterministic and case-insensitive — two queries
with the same uppercasing resolve identically over any reference table — and
a successful resolution returns the matched entry's identifier left-zero-padded
to width 10 (exactly 10 characters whenever the table's identifiers have at
most 10 digits, as CIKs do). -/
theorem C8_resolution_case_insensitive_padded (table : CompanyTable)
    (s t : String) :
    (pyUpper s = pyUpper t → to_cik table s = to_cik table t) ∧
    (∀ r, to_cik table s = some r →
      10 ≤ r.length ∧
      ((∀ p ∈ table, (Nat.repr p.2).length ≤ 10) → r.length = 10)) := by
  constructor
  · intro h
    have hpred : (fun p : String × Nat => pyUpper p.1 == pyUpper s)
        = (fun p : String × Nat => pyUpper p.1 == pyUpper t) := by
      funext p
      rw [h]
    rw [to_cik, to_cik, hpred]
  · intro r hr
    rw [to_cik] at hr
    cases hfind : List.find? (fun p => pyUpper p.1 == pyUpper s) table with
    | none => rw [hfind] at hr; exact absurd hr (by simp)
    | some p =>
      rw [hfind] at hr
      have hrp : r = zfill 10 (Nat.repr p.2) := (Option.some.inj hr).symm
      have hlen := zfill_length 10 (Nat.repr p.2)
      constructor
      · rw [hrp, hlen]
        exact Nat.le_max_left _ _
      · intro hbound
        have hp := hbound p (List.mem_of_find?_eq_some hfind)
        rw [hrp, hlen]
        omega

/-- Witness for C8 at a concrete one-entry reference table: the lowercase
and uppercase queries resolve identically, and the identifier comes back
zero-padded to exactly 10 characters. -/
theorem C8_witness :
    to_cik [("AAPL", 320193)] "aapl" = to_cik [("AAPL", 320193)] "AAPL" ∧
    to_cik [("AAPL", 320193)] "aapl" = some "0000320193" ∧
    ("0000320193" : String).length = 10 := by
  have h := C8_resolution_case_insensitive_padded [("AAPL", 320193)] "aapl" "AAPL"
  refine ⟨h.1 (by decide), by decide, ?_⟩
  exact (h.2 "0000320193" (by decide)).2 (by decide)

theorem getField_enrichFallback_summary (item : Item) :
    getField (enrichFallback item) "summary_ai" = some (.str "Error in analysis.") := by
  rw [enrichFallback, getField_setField_ne _ _ _ _ (by decide),
    getField_setField_ne _ _ _ _ (by decide)]
  exact getField_setField_self _ _ _

theorem getField_enrichFallback_sentiment (item : Item) :
    getField (enrichFallback item) "sentiment" = some (.str "Unknown") := by
  rw [enrichFallback, getField_setField_ne _ _ _ _ (by decide)]
  exact getField_setField_self _ _ _

theorem getField_enrichFallback_score (item : Item) :
    getField (enrichFallback item) "sentiment_score" = some (.num 0) := by
  rw [enrichFallback]
  exact getField_setField_self _ _ _

theorem openaiProcessItem_attempted (resp : ApiResponse) (item : Item)
    (h1 : textContent item ≠ "")
    (h2 : 10 ≤ (pyStrip (textContent item)).length) :
    openaiProcessItem true resp item =
      (true, match resp with
             | .apiFailure => enrichFallback item
             | .apiSuccess fields => applyAnalysis fields item) := by
  have hguard : ¬ (textContent item = "" ∨ (pyStrip (textContent item)).length < 10) := by
    push_neg
    exact ⟨h1, by omega⟩
  simp only [openaiProcessItem, if_neg hguard]
  cases resp <;> simp

theorem getField_applyAnalysis_of_score (fields : List (String × PVal))
    (item : Item) (q : Rat)
    (hq : pyFloat (jsonGet fields "sentiment_score" (.num 0)) = .finite q) :
    getField (applyAnalysis fields item) "summary_ai"
        = some (jsonGet fields "summary" (.str "")) ∧
    getField (applyAnalysis fields item) "sentiment"
        = some (jsonGet fields "sentiment" (.str "Unknown")) ∧
    getField (applyAnalysis fields item) "sentiment_score" = some (.num q) := by
  rw [applyAnalysis, hq]
  refine ⟨?_, ?_, ?_⟩
  · rw [getField_setField_ne _ _ _ _ (by decide),
      getField_setField_ne _ _ _ _ (by decide)]
    exact getField_setField_self _ _ _
  · rw [getField_setField_ne _ _ _ _ (by decide)]
    exact getField_setField_self _ _ _
  · exact getField_setField_self _ _ _

theorem getField_applyAnalysis_nonfinite (fields : List (String × PVal))
    (item : Item)
    (hq : pyFloat (jsonGet fields "sentiment_score" (.num 0)) = .nonfinite) :
    getField (applyAnalysis fields item) "summary_ai"
        = some (jsonGet fields "summary" (.str "")) ∧
    getField (applyAnalysis fields item) "sentiment"
        = some (jsonGet fields "sentiment" (.str "Unknown")) ∧
    getField (applyAnalysis fields item) "sentiment_score" = some .none := by
  rw [applyAnalysis, hq]
  refine ⟨?_, ?_, ?_⟩
  · rw [getField_setField_ne _ _ _ _ (by decide),
      getField_setField_ne _ _ _ _ (by decide)]
    exact getField_setField_self _ _ _
  · rw [getField_setField_ne _ _ _ _ (by decide)]
    exact getField_setField_self _ _ _
  · exact getField_setField_self _ _ _

/-- C1 (counterexample): with the call attempted on a well-formed candidate,
the analysis response whose sentiment is "Positive" and whose score is 2 —
an out-of-range score — does not produce the full fallback triple: the
returned sentiment is applied, the missing summary key falls back to "" (not
"Error in analysis."), and the out-of-range score 2 is stored as-is, outside
[-1.0, 1.0]. -/
theorem C1_partial_fallback_counterexample :
    (openaiProcessItem true
        (.apiSuccess [("sentiment", .str "Positive"), ("sentiment_score", .num 2)])
        [("report_text", .str "strong quarterly results")]).2
      = [("report_text", .str "strong quarterly results"),
         ("summary_ai", .str ""), ("sentiment", .str "Positive"),
         ("sentiment_score", .num 2)] ∧
    ¬ (-1 ≤ (2 : Rat) ∧ (2 : Rat) ≤ 1) := by
  exact ⟨by decide, by decide⟩

/-- C1 (amended): for every candidate on which the external call is
attempted, a transport or JSON-parse failure yields the full fallback triple
(summary "Error in analysis.", sentiment "Unknown", score 0.0), and so does
a response whose score value raises in float() (null, or a string outside
the float grammar); but a response whose score float-converts to a finite
value is applied field by field — summary and sentiment taken from the
response with per-key defaults "" and "Unknown" for missing keys, and the
converted score stored without any range check — so the output score lies in
[-1.0, 1.0] only when the converted score does.  (A score converting to the
non-finite floats nan/±inf is likewise applied per key, with that non-finite
float stored; no fallback.) -/
theorem C1_enrichment_fallback_amended (item : Item)
    (fields : List (String × PVal))
    (h1 : textContent item ≠ "")
    (h2 : 10 ≤ (pyStrip (textContent item)).length) :
    (openaiProcessItem true .apiFailure item).2 = enrichFallback item ∧
    (pyFloat (jsonGet fields "sentiment_score" (.num 0)) = .raises →
      (openaiProcessItem true (.apiSuccess fields) item).2 = enrichFallback item) ∧
    (∀ q, pyFloat (jsonGet fields "sentiment_score" (.num 0)) = .finite q →
      getField (openaiProcessItem true (.apiSuccess fields) item).2 "summary_ai"
          = some (jsonGet fields "summary" (.str "")) ∧
      getField (openaiProcessItem true (.apiSuccess fields) item).2 "sentiment"
          = some (jsonGet fields "sentiment" (.str "Unknown")) ∧
      getField (openaiProcessItem true (.apiSuccess fields) item).2 "sentiment_score"
          = some (.num q)) ∧
    getField (enrichFallback item) "summary_ai" = some (.str "Error in analysis.") ∧
    getField (enrichFallback item) "sentiment" = some (.str "Unknown") ∧
    getField (enrichFallback item) "sentiment_score" = some (.num 0) := by
  refine ⟨?_, ?_, ?_, getField_enrichFallback_summary item,
    getField_enrichFallback_sentiment item, getField_enrichFallback_score item⟩
  · rw [openaiProcessItem_attempted .apiFailure item h1 h2]
  · intro hnone
    rw [openaiProcessItem_attempted (.apiSuccess fields) item h1 h2]
    show applyAnalysis fields item = enrichFallback item
    rw [applyAnalysis, hnone]
  · intro q hq
    rw [openaiProcessItem_attempted (.apiSuccess fields) item h1 h2]
    exact getField_applyAnalysis_of_score fields item q hq

/-- Witness for C1 (amended) at a concrete filing candidate with a
long-enough report text: a failed call nets the full fallback triple, and a
response carrying only a score stores that converted score with the per-key
defaults for the other two fields. -/
theorem C1_amended_witness :
    textContent [("report_text", PVal.str "strong quarterly results")] ≠ "" ∧
    10 ≤ (pyStrip (textContent [("report_text", PVal.str "strong quarterly results")])).length ∧
    (openaiProcessItem true .apiFailure
        [("report_text", PVal.str "strong quarterly results")]).2
      = enrichFallback [("report_text", PVal.str "strong quarterly results")] ∧
    getField (openaiProcessItem true
        (.apiSuccess [("sentiment_score", PVal.num 1)])
        [("report_text", PVal.str "strong quarterly results")]).2 "sentiment_score"
      = some (.num 1) := by
  have h := C1_enrichment_fallback_amended
    [("report_text", PVal.str "strong quarterly results")]
    [("sentiment_score", PVal.num 1)] (by decide) (by decide)
  exact ⟨by decide, by decide, h.1, (h.2.2.1 1 (by decide)).2.2⟩

/-- C3 (counterexample): a news candidate whose only text is the two-character
article body "hi" is skipped by the enrichment input guard, and the record
the stage outputs carries neither a sentiment score field nor a sentiment
label field — both lookups are absent, not defaulted to 0.0/"Unknown". -/
theorem C3_absent_fields_counterexample :
    getField (openaiProcessItem true .apiFailure
        [("article_text", PVal.str "hi")]).2 "sentiment_score" = Option.none ∧
    getField (openaiProcessItem true .apiFailure
        [("article_text", PVal.str "hi")]).2 "sentiment" = Option.none := by
  exact ⟨by decide, by decide⟩

/-- C3 (amended): whenever the external call is attempted the output record
carries a sentiment score entry and a sentiment label entry — 0.0 and
"Unknown" on failure, the converted value when the score converts to a
finite float (the non-finite conversions nan/±inf store that float) — while
when enrichment is skipped the record passes through unchanged, with no
enrichment field attached, and it is the persistence reconciliation that
supplies score 0.0 and label "Unknown" for records lacking them. -/
theorem C3_score_label_presence_amended (item : Item)
    (fields : List (String × PVal))
    (h1 : textContent item ≠ "")
    (h2 : 10 ≤ (pyStrip (textContent item)).length) :
    ((getField (openaiProcessItem true (.apiSuccess fields) item).2
        "sentiment_score").isSome = true) ∧
    ((getField (openaiProcessItem true (.apiSuccess fields) item).2
        "sentiment").isSome = true) ∧
    (∀ q, pyFloat (jsonGet fields "sentiment_score" (.num 0)) = .finite q →
      getField (openaiProcessItem true (.apiSuccess fields) item).2
        "sentiment_score" = some (.num q)) ∧
    getField (openaiProcessItem true .apiFailure item).2 "sentiment_score"
      = some (.num 0) ∧
    getField (openaiProcessItem true .apiFailure item).2 "sentiment"
      = some (.str "Unknown") ∧
    (∀ (item' : Item) (resp : ApiResponse),
      textContent item' = "" ∨ (pyStrip (textContent item')).length < 10 →
      openaiProcessItem true resp item' = (false, item')) ∧
    (∀ row : Item, getField row "sentiment" = Option.none →
      secCell row "sentiment" = .str "Unknown" ∧
      newsCell row "sentiment" = .str "Unknown") ∧
    (∀ row : Item, getField row "sentiment_score" = Option.none →
      secCell row "sentiment_score" = .num 0 ∧
      newsCell row "sentiment_score" = .num 0) := by
  refine ⟨?_, ?_, ?_, ?_, ?_, ?_, ?_, ?_⟩
  · rw [openaiProcessItem_attempted (.apiSuccess fields) item h1 h2]
    show (getField (applyAnalysis fields item) "sentiment_score").isSome = true
    cases hq : pyFloat (jsonGet fields "sentiment_score" (.num 0)) with
    | raises =>
      rw [applyAnalysis, hq, getField_enrichFallback_score item]
      rfl
    | finite q =>
      rw [(getField_applyAnalysis_of_score fields item q hq).2.2]
      rfl
    | nonfinite =>
      rw [(getField_applyAnalysis_nonfinite fields item hq).2.2]
      rfl
  · rw [openaiProcessItem_attempted (.apiSuccess fields) item h1 h2]
    show (getField (applyAnalysis fields item) "sentiment").isSome = true
    cases hq : pyFloat (jsonGet fields "sentiment_score" (.num 0)) with
    | raises =>
      rw [applyAnalysis, hq, getField_enrichFallback_sentiment item]
      rfl
    | finite q =>
      rw [(getField_applyAnalysis_of_score fields item q hq).2.1]
      rfl
    | nonfinite =>
      rw [(getField_applyAnalysis_nonfinite fields item hq).2.1]
      rfl
  · intro q hq
    rw [openaiProcessItem_attempted (.apiSuccess fields) item h1 h2]
    exact (getField_applyAnalysis_of_score fields item q hq).2.2
  · rw [openaiProcessItem_attempted .apiFailure item h1 h2]
    exact getField_enrichFallback_score item
  · rw [openaiProcessItem_attempted .apiFailure item h1 h2]
    exact getField_enrichFallback_sentiment item
  · intro item' resp h
    simp only [openaiProcessItem, if_pos h]
    rfl
  · intro row hnone
    simp only [secCell, newsCell, hnone]
    exact ⟨by decide, by decide⟩
  · intro row hnone
    simp only [secCell, newsCell, hnone]
    exact ⟨by decide, by decide⟩

/-- Witness for C3 (amended) at a concrete filing candidate: the failure path
attaches exactly score 0.0 and label "Unknown", and a skipped empty record is
given both defaults by the persistence reconciliation. -/
theorem C3_amended_witness :
    getField (openaiProcessItem true .apiFailure
        [("report_text", PVal.str "record revenue this quarter")]).2
        "sentiment_score" = some (.num 0) ∧
    getField (openaiProcessItem true .apiFailure
        [("report_text", PVal.str "record revenue this quarter")]).2
        "sentiment" = some (.str "Unknown") ∧
    secCell [] "sentiment" = .str "Unknown" ∧
    newsCell [] "sentiment_score" = .num 0 := by
  have h := C3_score_label_presence_amended
    [("report_text", PVal.str "record revenue this quarter")] []
    (by decide) (by decide)
  exact ⟨h.2.2.2.1, h.2.2.2.2.1, (h.2.2.2.2.2.2.1 [] (by decide)).1,
    (h.2.2.2.2.2.2.2 [] (by decide)).2⟩

/-- C4 (counterexample): a news candidate whose extracted article text is the
empty string is not skipped when its title and feed summary are long enough:
the or-chain falls back to the title — summary string and the external call
is made (the call flag is true), contradicting the claim that an empty
extracted text always suppresses the call. -/
theorem C4_empty_text_call_counterexample :
    getField [("title", PVal.str "Apple releases record results"),
              ("summary", PVal.str "Earnings beat expectations"),
              ("article_text", PVal.str "")] "article_text"
      = some (.str "") ∧
    (openaiProcessItem true .apiFailure
      [("title", PVal.str "Apple releases record results"),
       ("summary", PVal.str "Earnings beat expectations"),
       ("article_text", PVal.str "")]).1 = true := by
  exact ⟨by decide, by decide⟩

/-- C4 (amended): the skip guard applies to the effective text of the
or-chain (report text if truthy, else article text if truthy, else the
title — summary fallback string): whenever that effective text is empty or
its stripped length is below 10 characters, no external call is made and the
record passes through unchanged; the defaults (empty summary, "Unknown",
0.0) then appear on the record through the persistence reconciliation of the
columns it lacks. -/
theorem C4_skip_guard_amended (item : Item) (resp : ApiResponse)
    (h : textContent item = "" ∨ (pyStrip (textContent item)).length < 10) :
    openaiProcessItem true resp item = (false, item) ∧
    (getField item "summary_ai" = Option.none →
      secCell item "summary_ai" = .str "" ∧
      newsCell item "summary_ai" = .str "") ∧
    (getField item "sentiment" = Option.none →
      secCell item "sentiment" = .str "Unknown" ∧
      newsCell item "sentiment" = .str "Unknown") ∧
    (getField item "sentiment_score" = Option.none →
      secCell item "sentiment_score" = .num 0 ∧
      newsCell item "sentiment_score" = .num 0) := by
  refine ⟨?_, ?_, ?_, ?_⟩
  · simp only [openaiProcessItem, if_pos h]
    rfl
  · intro hnone
    simp only [secCell, newsCell, hnone]
    exact ⟨by decide, by decide⟩
  · intro hnone
    simp only [secCell, newsCell, hnone]
    exact ⟨by decide, by decide⟩
  · intro hnone
    simp only [secCell, newsCell, hnone]
    exact ⟨by decide, by decide⟩

/-- Witness for C4 (amended) at a concrete short-text news candidate: no call
is made, the record passes through unchanged, and the persistence cells fill
in the three defaults. -/
theorem C4_amended_witness :
    (pyStrip (textContent [("article_text", PVal.str "hello")])).length < 10 ∧
    openaiProcessItem true .apiFailure [("article_text", PVal.str "hello")]
      = (false, [("article_text", PVal.str "hello")]) ∧
    secCell [("article_text", PVal.str "hello")] "summary_ai" = .str "" ∧
    newsCell [("article_text", PVal.str "hello")] "sentiment" = .str "Unknown" ∧
    newsCell [("article_text", PVal.str "hello")] "sentiment_score" = .num 0 := by
  have h := C4_skip_guard_amended [("article_text", PVal.str "hello")]
    .apiFailure (Or.inr (by decide))
  exact ⟨by decide, h.1, (h.2.1 (by decide)).1, (h.2.2.1 (by decide)).2,
    (h.2.2.2 (by decide)).2⟩

/-- The sec columns whose fillna default is the empty string (the string keys
of the dict at pipelines.py lines 205-210). -/
def secTextColumns : List String :=
  ["cik", "ticker", "company_name", "form", "accession_no",
   "primary_doc", "report_url", "report_text", "summary_ai"]

/-- The news columns whose fillna default is the empty string (the string
keys of the dict at pipelines.py lines 251-255). -/
def newsTextColumns : List String :=
  ["ticker", "source", "title", "link", "summary", "article_text", "summary_ai"]

theorem score_cell_total (v : Option PVal) :
    ∃ q, fillnaCell (numCoerce (v.getD .none)) (some (.num 0)) = .num q := by
  rcases v with _ | v
  · exact ⟨0, rfl⟩
  · cases v with
    | none => exact ⟨0, rfl⟩
    | num q => exact ⟨q, rfl⟩
    | bool b => exact ⟨if b then 1 else 0, rfl⟩
    | str s =>
      cases hp : pyFloatString s with
      | raises => exact ⟨0, by simp [numCoerce, hp, fillnaCell]⟩
      | finite q => exact ⟨q, by simp [numCoerce, hp, fillnaCell]⟩
      | nonfinite => exact ⟨0, by simp [numCoerce, hp, fillnaCell]⟩

theorem secCell_score_shape (row : Item) :
    secCell row "sentiment_score" =
      fillnaCell (numCoerce ((getField row "sentiment_score").getD .none))
        (some (.num 0)) := by
  simp [secCell, secCoerce, secFillDefault]

theorem newsCell_score_shape (row : Item) :
    newsCell row "sentiment_score" =
      fillnaCell (numCoerce ((getField row "sentiment_score").getD .none))
        (some (.num 0)) := by
  simp [newsCell, newsCoerce, newsFillDefault]

/-- C5: persistence reconciliation is total, typed and defaulted: every row
of the batch inserted into either store table binds every required column of
its kind's schema; a column the source candidate omitted receives exactly
its default (empty string for the text columns, "Unknown" for sentiment, 0.0
for the score); a present string value in a text column is kept as that
string; and the score cell is numeric for every input whatsoever. -/
theorem C5_reconciliation_total_defaulted (items : List Item) :
    (∀ r ∈ duckSecBatch items, ∀ c ∈ secColumns, ∃ v, getField r c = some v) ∧
    (∀ r ∈ duckNewsBatch items, ∀ c ∈ newsColumns, ∃ v, getField r c = some v) ∧
    (∀ row : Item, ∀ c ∈ secTextColumns,
      (getField row c = Option.none → secCell row c = .str "") ∧
      (∀ s, getField row c = some (.str s) → secCell row c = .str s)) ∧
    (∀ row : Item, getField row "sentiment" = Option.none →
      secCell row "sentiment" = .str "Unknown") ∧
    (∀ row : Item, getField row "sentiment_score" = Option.none →
      secCell row "sentiment_score" = .num 0) ∧
    (∀ row : Item, ∃ q, secCell row "sentiment_score" = .num q) ∧
    (∀ row : Item, ∀ c ∈ newsTextColumns,
      (getField row c = Option.none → newsCell row c = .str "") ∧
      (∀ s, getField row c = some (.str s) → newsCell row c = .str s)) ∧
    (∀ row : Item, getField row "sentiment" = Option.none →
      newsCell row "sentiment" = .str "Unknown") ∧
    (∀ row : Item, getField row "sentiment_score" = Option.none →
      newsCell row "sentiment_score" = .num 0) ∧
    (∀ row : Item, ∃ q, newsCell row "sentiment_score" = .num q) := by
  refine ⟨?_, ?_, ?_, ?_, ?_, ?_, ?_, ?_, ?_, ?_⟩
  · intro r hr c hc
    rw [duckSecBatch, List.mem_map] at hr
    obtain ⟨row, _, rfl⟩ := hr
    exact ⟨secCell row c, lookup_column_map (secCell row) secColumns c hc⟩
  · intro r hr c hc
    rw [duckNewsBatch, List.mem_map] at hr
    obtain ⟨row, _, rfl⟩ := hr
    exact ⟨newsCell row c, lookup_column_map (newsCell row) newsColumns c hc⟩
  · intro row c hc
    fin_cases hc <;>
      exact ⟨fun hnone => by simp only [secCell, hnone]; decide,
             fun s hs => by simp only [secCell, hs]; rfl⟩
  · intro row hnone
    simp only [secCell, hnone]
    decide
  · intro row hnone
    simp only [secCell, hnone]
    decide
  · intro row
    rw [secCell_score_shape]
    exact score_cell_total (getField row "sentiment_score")
  · intro row c hc
    fin_cases hc <;>
      exact ⟨fun hnone => by simp only [newsCell, hnone]; decide,
             fun s hs => by simp only [newsCell, hs]; rfl⟩
  · intro row hnone
    simp only [newsCell, hnone]
    decide
  · intro row hnone
    simp only [newsCell, hnone]
    decide
  · intro row
    rw [newsCell_score_shape]
    exact score_cell_total (getField row "sentiment_score")

/-- Witness for C5 at concrete rows: the reconciled filing row of the bare
candidate {"form": "10-K"} binds the sentiment column; an entirely empty
candidate gets report_text defaulted to ""; a news candidate keeps its
present summary string; and the unparseable score string "bogus" still
yields a numeric score cell. -/
theorem C5_witness :
    (∃ v, getField (reconciledSecRow [("form", PVal.str "10-K")]) "sentiment"
        = some v) ∧
    secCell [] "report_text" = .str "" ∧
    newsCell [("summary", PVal.str "hello")] "summary" = .str "hello" ∧
    (∃ q, secCell [("sentiment_score", PVal.str "bogus")] "sentiment_score"
        = .num q) := by
  obtain ⟨h1, h2, h3, h4, h5, h6, h7, h8, h9, h10⟩ :=
    C5_reconciliation_total_defaulted [[("form", PVal.str "10-K")]]
  refine ⟨?_, ?_, ?_, ?_⟩
  · exact h1 (reconciledSecRow [("form", PVal.str "10-K")]) (by decide)
      "sentiment" (by decide)
  · exact (h3 [] "report_text" (by decide)).1 (by decide)
  · exact (h7 [("summary", PVal.str "hello")] "summary" (by decide)).2 "hello"
      (by decide)
  · exact h6 [("sentiment_score", PVal.str "bogus")]

/-- Witness for C2 at a concrete index response holding one "10-K" and one
"4" filing: the emitted candidate (only the 10-K survives the filter) indeed
carries an allow-listed form. -/
theorem C2_witness :
    ∃ f ∈ relevantForms,
      getField (setField
          (secMeta 320193 "AAPL" "Apple Inc."
            ⟨"10-K", "2024-01-02", "0000320193-24-000001", "a.htm"⟩)
          "report_text" (.str (truncateWords 4000 "annual report text")))
        "form" = some (.str f) := by
  have h := C2_only_relevant_forms_emitted 320193 "AAPL" "Apple Inc."
    ⟨["10-K", "4"], ["2024-01-02", "2024-01-03"],
     ["0000320193-24-000001", "0000320193-24-000002"], ["a.htm", "b.htm"]⟩
    (fun _ => "annual report text")
  refine h.1 _ ?_
  apply List.mem_filterMap.mpr
  refine ⟨secMeta 320193 "AAPL" "Apple Inc."
    ⟨"10-K", "2024-01-02", "0000320193-24-000001", "a.htm"⟩, ?_, ?_⟩
  · rw [secParse]
    apply List.mem_map.mpr
    refine ⟨⟨"10-K", "2024-01-02", "0000320193-24-000001", "a.htm"⟩, ?_, rfl⟩
    decide
  · rfl

/-- Witness for C7 at a one-entry feed whose article page lacks the content
container: exactly one candidate comes out, with empty article text and the
feed's own summary. -/
theorem C7_witness :
    getField (parse_article (newsMeta "AAPL" ⟨"T", "L", Option.none, some "S"⟩)
        ⟨Option.none⟩) "article_text" = some (.str "") ∧
    getField (parse_article (newsMeta "AAPL" ⟨"T", "L", Option.none, some "S"⟩)
        ⟨Option.none⟩) "summary" = some (.str "S") ∧
    (newsEmitted "AAPL" [⟨"T", "L", Option.none, some "S"⟩]
        (fun _ => ⟨Option.none⟩)).length = 1 := by
  have h := C7_one_news_candidate_per_entry "AAPL"
    [⟨"T", "L", Option.none, some "S"⟩] (fun _ => ⟨Option.none⟩)
  have hmem : parse_article (newsMeta "AAPL" ⟨"T", "L", Option.none, some "S"⟩)
      ⟨Option.none⟩ ∈ newsEmitted "AAPL" [⟨"T", "L", Option.none, some "S"⟩]
        (fun _ => ⟨Option.none⟩) := by
    simp [newsEmitted]
  obtain ⟨e, he, h1, h2, h3⟩ := h.2 _ hmem
  have he' : e = ⟨"T", "L", Option.none, some "S"⟩ := by
    simpa using he
  subst he'
  exact ⟨h3 rfl, h1, h.1⟩
